import Mathlib

/-!
# Verification of the sochma-bot registration state machine

Shallow embedding of the registration FSM (`src/services/registrationFSM.js`),
the user record model with its instance methods (mongoose `userSchema`), and
the dispatch predicate (`src/handlers/registrationHandler.js` /
`BotService.setupMiddleware`).

The store is modelled as either an available record slot (present or missing)
or an unavailable backend (a read that throws); each FSM operation returns the
updated store together with the result object it builds, mirroring the
JavaScript `try/catch` structure that converts thrown errors into
`{ success: false, error }` results.  Prompt copy is abbreviated (the exact
message text is a presentation concern); keyboard structure is kept.
-/

namespace Sochma

/-- The six registration states of `RegistrationFSM.states`. -/
inductive RegState where
  | not_started
  | phone_entered
  | name_entered
  | role_selected
  | agenda_viewed
  | completed
deriving DecidableEq, Repr

/-- The registration-relevant fields of a mongoose user document
(`phoneNumber`, `userFullName`, `role`, `registrationState`, `isRegistered`).
Identity and statistics fields are omitted: no FSM operation reads them. -/
structure User where
  phoneNumber : Option String
  userFullName : Option String
  role : Option String
  registrationState : RegState
  isRegistered : Bool
deriving DecidableEq, Repr

/-- `RegistrationFSM.transitions`: for each state the list of legal next
states; `completed` is terminal (empty list). -/
def transitions : RegState → List RegState
  | .not_started => [.phone_entered]
  | .phone_entered => [.name_entered]
  | .name_entered => [.role_selected]
  | .role_selected => [.agenda_viewed]
  | .agenda_viewed => [.completed]
  | .completed => []

/-- `RegistrationFSM.isValidTransition`. -/
def isValidTransition (fromState toState : RegState) : Bool :=
  (transitions fromState).contains toState

/-- `userSchema.methods.setPhoneNumber`: stores the phone and moves the state
to `phone_entered`. -/
def User.setPhoneNumber (u : User) (p : String) : User :=
  { u with phoneNumber := some p, registrationState := .phone_entered }

/-- `userSchema.methods.setFullName`: stores the name and moves the state to
`name_entered`. -/
def User.setFullName (u : User) (n : String) : User :=
  { u with userFullName := some n, registrationState := .name_entered }

/-- `userSchema.methods.setRole`: stores the role and moves the state to
`role_selected`. -/
def User.setRole (u : User) (r : String) : User :=
  { u with role := some r, registrationState := .role_selected }

/-- `userSchema.methods.updateRegistrationState`: sets the state and, only
when the new state is `completed`, also sets `isRegistered`. -/
def User.updateRegistrationState (u : User) (s : RegState) : User :=
  { u with registrationState := s,
           isRegistered := if s = .completed then true else u.isRegistered }

/-- `userSchema.methods.completeRegistration`: sets `completed` and
`isRegistered`. -/
def User.completeRegistration (u : User) : User :=
  { u with registrationState := .completed, isRegistered := true }

/-- The store as one FSM operation sees it: the sender's record slot when the
backend is reachable (`ok`, holding the record or nothing), or an unreachable
backend whose read throws (`unavailable`). -/
inductive Db where
  | ok : Option User → Db
  | unavailable : Db
deriving DecidableEq, Repr

/-- One inline-keyboard button (`text` plus `callback_data`). -/
structure Button where
  text : String
  callback_data : String
deriving DecidableEq, Repr

/-- The role-selection inline keyboard of `getStateKeyboard`. -/
def roleSelectionKeyboard : List (List Button) :=
  [[⟨"Buyer", "role_buyer"⟩, ⟨"Investor", "role_investor"⟩],
   [⟨"Both", "role_both"⟩]]

/-- The completion inline keyboard of `getStateKeyboard`. -/
def completionKeyboard : List (List Button) :=
  [[⟨"Complete Registration", "complete_registration"⟩]]

/-- `RegistrationFSM.getStateKeyboard`: keyboards exist only for
`role_selected` and `agenda_viewed`; every other state maps to null. -/
def getStateKeyboard : RegState → Option (List (List Button))
  | .role_selected => some roleSelectionKeyboard
  | .agenda_viewed => some completionKeyboard
  | _ => none

/-- The per-state prompt texts of `RegistrationFSM.getStateMessage`
(abbreviated copy; `completed` has no entry in the source map). -/
def stateMessages : RegState → Option String
  | .not_started => some "Welcome to Sochma Bot! Please enter your phone number in international format (e.g., +1234567890):"
  | .phone_entered => some "Great! Now please enter your full name:"
  | .name_entered => some "Perfect! Are you primarily a Buyer, an Investor, or Both?"
  | .role_selected => some "Bot Agenda and Features. Ready to complete your registration?"
  | .agenda_viewed => some "Registration Complete! Welcome to Sochma."
  | .completed => none

/-- `RegistrationFSM.getStateMessage` with its fallback text. -/
def getStateMessage (st : RegState) : String :=
  (stateMessages st).getD "Unknown state"

/-- The result object every FSM operation returns: a `success` flag plus the
optional `error`, `state`, `message` and `keyboard` fields the source attaches
(absent and null fields are both `none`). -/
structure ProcResult where
  success : Bool
  error : Option String := none
  state : Option RegState := none
  message : Option String := none
  keyboard : Option (List (List Button)) := none
deriving DecidableEq, Repr

/-- `RegistrationFSM.cleanPhoneNumber`: `phone.replace(/[^\d+]/g, '')` keeps
exactly the digits and every plus sign. -/
def cleanPhoneNumber (phone : String) : String :=
  ⟨phone.data.filter (fun c => c.isDigit || c == '+')⟩

/-- `RegistrationFSM.isValidPhoneNumber`: the regex `^\+[1-9]\d\x7b1,14\x7d$`
as a predicate on the character list. -/
def isValidPhoneNumber (phone : String) : Bool :=
  match phone.data with
  | c :: d :: rest =>
      (c == '+') && (d.isDigit && d != '0') && rest.all (fun x => x.isDigit)
        && decide (1 ≤ rest.length) && decide (rest.length ≤ 14)
  | _ => false

/-- JavaScript `String.prototype.trim`: drop whitespace from both ends. -/
def jsTrim (s : String) : String :=
  ⟨((s.data.dropWhile Char.isWhitespace).reverse.dropWhile
      Char.isWhitespace).reverse⟩

/-- The fresh record `startRegistration` creates (`registrationState:
NOT_STARTED`, `isRegistered: false`, answer fields at their schema defaults). -/
def newUser : User :=
  { phoneNumber := none, userFullName := none, role := none,
    registrationState := .not_started, isRegistered := false }

/-- The success result shared by every operation: `state`, `message` and
`keyboard` are read back from the (possibly updated) record. -/
def successResult (u : User) : ProcResult :=
  { success := true, state := some u.registrationState,
    message := some (getStateMessage u.registrationState),
    keyboard := getStateKeyboard u.registrationState }

/-- `RegistrationFSM.startRegistration`: creates the record only when none
exists; never mutates an existing record; the catch branch converts a thrown
store error into a failure result. -/
def startRegistration (db : Db) : Db × ProcResult :=
  match db with
  | .unavailable =>
      (db, { success := false, error := some "Failed to start registration" })
  | .ok (some user) => (db, successResult user)
  | .ok none => (Db.ok (some newUser), successResult newUser)

/-- `RegistrationFSM.processPhoneNumber`. -/
def processPhoneNumber (db : Db) (phoneNumber : String) : Db × ProcResult :=
  match db with
  | .unavailable =>
      (db, { success := false, error := some "Failed to process phone number" })
  | .ok none => (db, { success := false, error := some "User not found" })
  | .ok (some user) =>
      let currentState := user.registrationState
      if isValidTransition currentState .phone_entered then
        let cleanPhone := cleanPhoneNumber phoneNumber
        if isValidPhoneNumber cleanPhone then
          let updated := user.setPhoneNumber cleanPhone
          (Db.ok (some updated), successResult updated)
        else
          (db, { success := false,
                 error := some "Invalid phone number format. Please enter a valid phone number (e.g., +1234567890)",
                 keyboard := getStateKeyboard currentState })
      else
        (db, { success := false, error := some "Invalid state transition" })

/-- `RegistrationFSM.processFullName` (the `!fullName` null guard collapses
into the trimmed-length check for string inputs). -/
def processFullName (db : Db) (fullName : String) : Db × ProcResult :=
  match db with
  | .unavailable =>
      (db, { success := false, error := some "Failed to process full name" })
  | .ok none => (db, { success := false, error := some "User not found" })
  | .ok (some user) =>
      let currentState := user.registrationState
      if isValidTransition currentState .name_entered then
        if (jsTrim fullName).length < 2 then
          (db, { success := false,
                 error := some "Please enter a valid full name (at least 2 characters)",
                 keyboard := getStateKeyboard currentState })
        else
          let updated := user.setFullName (jsTrim fullName)
          (Db.ok (some updated), successResult updated)
      else
        (db, { success := false, error := some "Invalid state transition" })

/-- `RegistrationFSM.processRoleSelection`. -/
def processRoleSelection (db : Db) (role : String) : Db × ProcResult :=
  match db with
  | .unavailable =>
      (db, { success := false, error := some "Failed to process role selection" })
  | .ok none => (db, { success := false, error := some "User not found" })
  | .ok (some user) =>
      let currentState := user.registrationState
      if isValidTransition currentState .role_selected then
        if ["buyer", "investor", "both"].contains role then
          let updated := user.setRole role
          (Db.ok (some updated), successResult updated)
        else
          (db, { success := false, error := some "Invalid role selection",
                 keyboard := getStateKeyboard currentState })
      else
        (db, { success := false, error := some "Invalid state transition" })

/-- `RegistrationFSM.showAgenda`. -/
def showAgenda (db : Db) : Db × ProcResult :=
  match db with
  | .unavailable =>
      (db, { success := false, error := some "Failed to show agenda" })
  | .ok none => (db, { success := false, error := some "User not found" })
  | .ok (some user) =>
      if isValidTransition user.registrationState .agenda_viewed then
        let updated := user.updateRegistrationState .agenda_viewed
        (Db.ok (some updated), successResult updated)
      else
        (db, { success := false, error := some "Invalid state transition" })

/-- `RegistrationFSM.completeRegistration`. -/
def completeRegistration (db : Db) : Db × ProcResult :=
  match db with
  | .unavailable =>
      (db, { success := false, error := some "Failed to complete registration" })
  | .ok none => (db, { success := false, error := some "User not found" })
  | .ok (some user) =>
      if isValidTransition user.registrationState .completed then
        let updated := user.completeRegistration
        (Db.ok (some updated), successResult updated)
      else
        (db, { success := false, error := some "Invalid state transition" })

/-- One inbound registration input event, tagged by which FSM processing
operation the handlers route it to. -/
inductive Event where
  | phone (s : String)
  | name (s : String)
  | role (s : String)
  | agenda
  | complete
deriving DecidableEq, Repr

/-- Dispatch of one input event to its FSM processing operation. -/
def step (db : Db) : Event → Db × ProcResult
  | .phone s => processPhoneNumber db s
  | .name s => processFullName db s
  | .role s => processRoleSelection db s
  | .agenda => showAgenda db
  | .complete => completeRegistration db

/-- `RegistrationFSM.getCurrentState`: a missing record reads as
`not_started`; the catch branch also returns `not_started` when the store
read throws. -/
def getCurrentState (db : Db) : RegState :=
  match db with
  | .ok (some user) => user.registrationState
  | .ok none => .not_started
  | .unavailable => .not_started

/-- `RegistrationHandler.isInRegistration`: the sender is mid-registration
when the current state is neither `completed` nor `not_started`. -/
def isInRegistration (db : Db) : Bool :=
  getCurrentState db != .completed && getCurrentState db != .not_started

/-- The registration middleware decision in `BotService.setupMiddleware`: a
message is diverted into the registration machine exactly when the sender is
mid-registration and the message carries text. -/
def routesToRegistration (db : Db) (hasText : Bool) : Bool :=
  isInRegistration db && hasText


/-- Spec reading of the cleaning policy: keep the digits and plus signs of
the input, in order, dropping everything else. -/
def keepDigitsOrPlus : List Char → List Char
  | [] => []
  | c :: cs =>
      if c.isDigit = true ∨ c = '+' then c :: keepDigitsOrPlus cs
      else keepDigitsOrPlus cs

/-- The answer field a first successful processing of each event writes. -/
def answerStored : Event → User → Prop
  | .phone s, u => u.phoneNumber = some (cleanPhoneNumber s)
  | .name s, u => u.userFullName = some (jsTrim s)
  | .role s, u => u.role = some s
  | .agenda, _ => True
  | .complete, u => u.isRegistered = true

/-- The user records reachable from the freshly created record by the FSM
processing operations. -/
inductive Reachable : User → Prop where
  | init : Reachable newUser
  | next (u u2 : User) (e : Event) : Reachable u →
      (step (Db.ok (some u)) e).1 = Db.ok (some u2) → Reachable u2

/-- A sample record that has answered the phone question. -/
def userPhone : User :=
  { phoneNumber := some "+14155550123", userFullName := none, role := none,
    registrationState := .phone_entered, isRegistered := false }

/-- A sample record that has also answered the name question. -/
def userName : User :=
  { userPhone with userFullName := some "Jordan Lee",
                   registrationState := .name_entered }

/-- The end-to-end scenario run: registration start on an empty store. -/
def runStart : Db × ProcResult := startRegistration (Db.ok none)

/-- The scenario after sending the phone number. -/
def runPhone : Db × ProcResult := step runStart.1 (Event.phone "+14155550123")

/-- The scenario after sending the full name. -/
def runName : Db × ProcResult := step runPhone.1 (Event.name "Jordan Lee")

/-- The scenario after selecting the investor role. -/
def runRole : Db × ProcResult := step runName.1 (Event.role "investor")

/-- The scenario after acknowledging the agenda. -/
def runAgenda : Db × ProcResult := step runRole.1 Event.agenda

/-- The scenario after confirming completion. -/
def runComplete : Db × ProcResult := step runAgenda.1 Event.complete

lemma filter_eq_keepDigitsOrPlus (l : List Char) :
    l.filter (fun c => c.isDigit || c == '+') = keepDigitsOrPlus l := by
  induction l with
  | nil => rfl
  | cons c cs ih =>
      by_cases hd : c.isDigit = true ∨ c = '+'
      · have hb : (c.isDigit || (c == '+')) = true := by
          rcases hd with h | h
          · simp [h]
          · simp [h]
        simp [List.filter_cons, hb, hd, ih, keepDigitsOrPlus]
      · have hb : (c.isDigit || (c == '+')) = false := by
          push_neg at hd
          simp [hd.1, hd.2]
        simp [List.filter_cons, hb, hd, ih, keepDigitsOrPlus]

/-- C1: processing the same valid input event twice from state X performs
exactly one transition: the first successful call moves the record to the
unique successor of X and stores the answer, and the second call fails the
expected-state check, returning an unsuccessful result without writing. -/
theorem input_idempotence (u : User) (e : Event)
    (h : (step (Db.ok (some u)) e).2.success = true) :
    ∃ u2 : User,
      (step (Db.ok (some u)) e).1 = Db.ok (some u2)
      ∧ transitions u.registrationState = [u2.registrationState]
      ∧ answerStored e u2
      ∧ (step (Db.ok (some u2)) e).1 = Db.ok (some u2)
      ∧ (step (Db.ok (some u2)) e).2.success = false := by
  obtain ⟨p, n, r, st, reg⟩ := u
  cases e with
  | phone s =>
      cases st
      case not_started =>
        by_cases h2 : isValidPhoneNumber (cleanPhoneNumber s) = true
        · refine ⟨⟨some (cleanPhoneNumber s), n, r, .phone_entered, reg⟩,
            ?_, rfl, rfl, rfl, rfl⟩
          simp [step, processPhoneNumber, isValidTransition, transitions,
            h2, User.setPhoneNumber]
        · simp [step, processPhoneNumber, isValidTransition, transitions,
            h2] at h
      all_goals
        simp [step, processPhoneNumber, isValidTransition, transitions] at h
  | name s =>
      cases st
      case phone_entered =>
        by_cases h2 : (jsTrim s).length < 2
        · simp [step, processFullName, isValidTransition, transitions,
            h2] at h
        · refine ⟨⟨p, some (jsTrim s), r, .name_entered, reg⟩,
            ?_, rfl, rfl, rfl, rfl⟩
          simp [step, processFullName, isValidTransition, transitions,
            h2, User.setFullName]
      all_goals
        simp [step, processFullName, isValidTransition, transitions] at h
  | role s =>
      cases st
      case name_entered =>
        by_cases h2 : s = "buyer" ∨ s = "investor" ∨ s = "both"
        · refine ⟨⟨p, n, some s, .role_selected, reg⟩,
            ?_, rfl, rfl, rfl, rfl⟩
          simp [step, processRoleSelection, isValidTransition, transitions,
            h2, User.setRole]
        · simp [step, processRoleSelection, isValidTransition, transitions,
            h2] at h
      all_goals
        simp [step, processRoleSelection, isValidTransition, transitions] at h
  | agenda =>
      cases st
      case role_selected =>
        exact ⟨⟨p, n, r, .agenda_viewed, reg⟩, rfl, rfl, trivial, rfl, rfl⟩
      all_goals
        simp [step, showAgenda, isValidTransition, transitions] at h
  | complete =>
      cases st
      case agenda_viewed =>
        exact ⟨⟨p, n, r, .completed, true⟩, rfl, rfl, rfl, rfl, rfl⟩
      all_goals
        simp [step, completeRegistration, isValidTransition, transitions] at h

/-- Witness for C1 at a concrete record and event. -/
theorem input_idempotence_witness :
    ((step (Db.ok (some newUser)) (Event.phone "+14155550123")).2.success
        = true)
    ∧ ∃ u2 : User,
        (step (Db.ok (some newUser)) (Event.phone "+14155550123")).1
            = Db.ok (some u2)
        ∧ transitions newUser.registrationState = [u2.registrationState]
        ∧ answerStored (Event.phone "+14155550123") u2
        ∧ (step (Db.ok (some u2)) (Event.phone "+14155550123")).1
            = Db.ok (some u2)
        ∧ (step (Db.ok (some u2)) (Event.phone "+14155550123")).2.success
            = false :=
  ⟨by decide, input_idempotence newUser (Event.phone "+14155550123") (by decide)⟩

/-- C2: an input failing the validation rule of its question performs no
write at all (the store is returned unchanged), the result is unsuccessful,
and when the sender actually is at that question the result repeats the
keyboard of the current state. -/
theorem validation_purity (u1 u2 u3 : User) (s n r : String)
    (hs : isValidPhoneNumber (cleanPhoneNumber s) = false)
    (hn : (jsTrim n).length < 2)
    (hr : ¬(r = "buyer" ∨ r = "investor" ∨ r = "both")) :
    ((processPhoneNumber (Db.ok (some u1)) s).1 = Db.ok (some u1)
      ∧ (processPhoneNumber (Db.ok (some u1)) s).2.success = false
      ∧ (isValidTransition u1.registrationState RegState.phone_entered
            = true →
          (processPhoneNumber (Db.ok (some u1)) s).2.keyboard
            = getStateKeyboard u1.registrationState))
    ∧ ((processFullName (Db.ok (some u2)) n).1 = Db.ok (some u2)
      ∧ (processFullName (Db.ok (some u2)) n).2.success = false
      ∧ (isValidTransition u2.registrationState RegState.name_entered
            = true →
          (processFullName (Db.ok (some u2)) n).2.keyboard
            = getStateKeyboard u2.registrationState))
    ∧ ((processRoleSelection (Db.ok (some u3)) r).1 = Db.ok (some u3)
      ∧ (processRoleSelection (Db.ok (some u3)) r).2.success = false
      ∧ (isValidTransition u3.registrationState RegState.role_selected
            = true →
          (processRoleSelection (Db.ok (some u3)) r).2.keyboard
            = getStateKeyboard u3.registrationState)) := by
  refine ⟨?_, ?_, ?_⟩
  · by_cases hT :
      isValidTransition u1.registrationState RegState.phone_entered = true
    · simp [processPhoneNumber, hT, hs]
    · simp [processPhoneNumber, hT]
  · by_cases hT :
      isValidTransition u2.registrationState RegState.name_entered = true
    · simp [processFullName, hT, hn]
    · simp [processFullName, hT]
  · by_cases hT :
      isValidTransition u3.registrationState RegState.role_selected = true
    · simp [processRoleSelection, hT, hr]
    · simp [processRoleSelection, hT]

/-- Witness for C2: an invalid phone, a one-letter name and an unknown role
are each rejected without a write at the question they answer. -/
theorem validation_purity_witness :
    ((processPhoneNumber (Db.ok (some newUser)) "12345").1
        = Db.ok (some newUser)
      ∧ (processPhoneNumber (Db.ok (some newUser)) "12345").2.success = false
      ∧ (isValidTransition newUser.registrationState RegState.phone_entered
            = true →
          (processPhoneNumber (Db.ok (some newUser)) "12345").2.keyboard
            = getStateKeyboard newUser.registrationState))
    ∧ ((processFullName (Db.ok (some userPhone)) "A").1
        = Db.ok (some userPhone)
      ∧ (processFullName (Db.ok (some userPhone)) "A").2.success = false
      ∧ (isValidTransition userPhone.registrationState RegState.name_entered
            = true →
          (processFullName (Db.ok (some userPhone)) "A").2.keyboard
            = getStateKeyboard userPhone.registrationState))
    ∧ ((processRoleSelection (Db.ok (some userName)) "admin").1
        = Db.ok (some userName)
      ∧ (processRoleSelection (Db.ok (some userName)) "admin").2.success
          = false
      ∧ (isValidTransition userName.registrationState RegState.role_selected
            = true →
          (processRoleSelection (Db.ok (some userName)) "admin").2.keyboard
            = getStateKeyboard userName.registrationState)) :=
  validation_purity newUser userPhone userName "12345" "A" "admin"
    (by decide) (by decide) (by decide)

/-- C3: every processing operation leaves the stored state unchanged or
moves it to the unique successor in the chain, `startRegistration` never
moves an existing record, the transition table is exactly the chain
not_started, phone_entered, name_entered, role_selected, agenda_viewed,
completed, and completed has no successor. -/
theorem no_state_skipping :
    (∀ (u u2 : User) (e : Event),
        (step (Db.ok (some u)) e).1 = Db.ok (some u2) →
        u2.registrationState = u.registrationState
          ∨ transitions u.registrationState = [u2.registrationState])
    ∧ (∀ u : User, (startRegistration (Db.ok (some u))).1 = Db.ok (some u))
    ∧ transitions RegState.not_started = [RegState.phone_entered]
    ∧ transitions RegState.phone_entered = [RegState.name_entered]
    ∧ transitions RegState.name_entered = [RegState.role_selected]
    ∧ transitions RegState.role_selected = [RegState.agenda_viewed]
    ∧ transitions RegState.agenda_viewed = [RegState.completed]
    ∧ transitions RegState.completed = [] := by
  refine ⟨?_, fun u => rfl, rfl, rfl, rfl, rfl, rfl, rfl⟩
  intro u u2 e h
  obtain ⟨p, n, r, st, reg⟩ := u
  cases e <;> cases st <;>
    simp [step, processPhoneNumber, processFullName,
      processRoleSelection, showAgenda, completeRegistration,
      isValidTransition, transitions] at h <;>
    (repeat' split at h) <;>
    (try simp at h) <;>
    (try subst h) <;>
    simp [User.setPhoneNumber, User.setFullName, User.setRole,
      User.updateRegistrationState, User.completeRegistration, transitions]

/-- Witness for C3 at a concrete write. -/
theorem no_state_skipping_witness :
    (step (Db.ok (some newUser)) (Event.phone "+14155550123")).1
        = Db.ok (some (newUser.setPhoneNumber "+14155550123"))
    ∧ ((newUser.setPhoneNumber "+14155550123").registrationState
          = newUser.registrationState
        ∨ transitions newUser.registrationState
            = [(newUser.setPhoneNumber "+14155550123").registrationState]) :=
  ⟨by decide,
    no_state_skipping.1 newUser (newUser.setPhoneNumber "+14155550123")
      (Event.phone "+14155550123") (by decide)⟩

/-- C4: in every record reachable from the initial record, `isRegistered`
holds exactly when the state is `completed`, and the stored role is unset or
one of buyer, investor, both. -/
theorem record_invariants (u : User) (h : Reachable u) :
    (u.isRegistered = true ↔ u.registrationState = RegState.completed)
    ∧ (u.role = none ∨ u.role = some "buyer" ∨ u.role = some "investor"
        ∨ u.role = some "both") := by
  induction h with
  | init => decide
  | next u u2 e hu heq ih =>
      obtain ⟨p, n, r, st, reg⟩ := u
      cases e with
      | phone s =>
          cases st <;>
            simp [step, processPhoneNumber, isValidTransition,
              transitions, User.setPhoneNumber] at heq <;>
            (repeat' split at heq) <;>
            (try simp at heq) <;>
            (try subst heq) <;>
            simp_all
      | name s =>
          cases st <;>
            simp [step, processFullName, isValidTransition,
              transitions, User.setFullName] at heq <;>
            (repeat' split at heq) <;>
            (try simp at heq) <;>
            (try subst heq) <;>
            simp_all
      | role s =>
          by_cases hc : s = "buyer" ∨ s = "investor" ∨ s = "both"
          · rcases hc with h1 | h1 | h1 <;> subst h1 <;> cases st <;>
              simp [step, processRoleSelection, isValidTransition,
                transitions, User.setRole] at heq <;>
              (try subst heq) <;>
              simp_all
          · cases st <;>
              simp [step, processRoleSelection, isValidTransition,
                transitions, hc, User.setRole] at heq <;>
              (try subst heq) <;>
              simp_all
      | agenda =>
          cases st <;>
            simp [step, showAgenda, isValidTransition, transitions,
              User.updateRegistrationState] at heq <;>
            (try subst heq) <;>
            simp_all
      | complete =>
          cases st <;>
            simp [step, completeRegistration, isValidTransition,
              transitions, User.completeRegistration] at heq <;>
            (try subst heq) <;>
            simp_all

/-- Witness for C4 at the initial record. -/
theorem record_invariants_witness :
    (newUser.isRegistered = true
        ↔ newUser.registrationState = RegState.completed)
    ∧ (newUser.role = none ∨ newUser.role = some "buyer"
        ∨ newUser.role = some "investor" ∨ newUser.role = some "both") :=
  record_invariants newUser Reachable.init

/-- C5 counterexample: a plus sign that is not in first position survives
cleaning; the claim predicted it would be stripped. -/
theorem phone_cleaning_cex :
    cleanPhoneNumber "1+2" = "1+2" ∧ cleanPhoneNumber "1+2" ≠ "12" := by
  decide

/-- C5 amended: cleaning keeps exactly the digits and every plus sign
(wherever it occurs, not only a leading one); validation accepts exactly the
strings of shape plus, nonzero digit, then 1 to 14 digits; the two spec
examples hold. -/
theorem phone_cleaning_amended :
    (∀ s : String, (cleanPhoneNumber s).data = keepDigitsOrPlus s.data)
    ∧ (∀ s : String, isValidPhoneNumber s = true ↔
        ∃ d ds, s.data = '+' :: d :: ds ∧ d.isDigit = true ∧ d ≠ '0'
          ∧ (∀ c ∈ ds, c.isDigit = true) ∧ 1 ≤ ds.length ∧ ds.length ≤ 14)
    ∧ cleanPhoneNumber "+1 (234) 567-8901" = "+12345678901"
    ∧ isValidPhoneNumber "+12345678901" = true
    ∧ isValidPhoneNumber "12345" = false := by
  refine ⟨fun s => filter_eq_keepDigitsOrPlus s.data, fun s => ?_, by decide,
    by decide, by decide⟩
  rcases hs : s.data with _ | ⟨c, _ | ⟨d, ds⟩⟩
  · simp [isValidPhoneNumber, hs]
  · simp [isValidPhoneNumber, hs]
  · simp only [isValidPhoneNumber, hs, Bool.and_eq_true, beq_iff_eq,
      bne_iff_ne, ne_eq, List.all_eq_true, decide_eq_true_eq,
      List.cons.injEq]
    constructor
    · rintro ⟨⟨⟨⟨hc, hd0, hd1⟩, hall⟩, h1⟩, h14⟩
      exact ⟨d, ds, ⟨hc, rfl, rfl⟩, hd0, hd1, hall, h1, h14⟩
    · rintro ⟨d2, ds2, ⟨hc, hd2, hds2⟩, hd0, hd1, hall, h1, h14⟩
      subst hd2
      subst hds2
      exact ⟨⟨⟨⟨hc, hd0, hd1⟩, hall⟩, h1⟩, h14⟩

/-- C6 counterexample: a sender in state `not_started` is not `completed`,
yet the dispatch predicate does not route the event into the registration
machine. -/
theorem dispatch_not_started_cex :
    RegState.not_started ≠ RegState.completed
    ∧ isInRegistration (Db.ok (some newUser)) = false
    ∧ routesToRegistration (Db.ok (some newUser)) true = false := by
  decide

/-- C6 amended: the dispatch decision is a function of the sender state
alone, and an event is routed into the registration machine exactly when the
state is neither `completed` nor `not_started`; in particular a `completed`
sender is never routed back into the machine. -/
theorem dispatch_state_only (db db2 : Db)
    (hsame : getCurrentState db = getCurrentState db2) :
    isInRegistration db = isInRegistration db2
    ∧ (isInRegistration db = true ↔
        (getCurrentState db ≠ RegState.completed
          ∧ getCurrentState db ≠ RegState.not_started)) := by
  constructor
  · simp [isInRegistration, hsame]
  · simp [isInRegistration, Bool.and_eq_true, bne_iff_ne]

/-- Witness for the amended C6 theorem: a missing record and an unavailable
store read the same state, so they dispatch identically. -/
theorem dispatch_state_only_witness :
    isInRegistration (Db.ok none) = isInRegistration Db.unavailable
    ∧ (isInRegistration (Db.ok none) = true ↔
        (getCurrentState (Db.ok none) ≠ RegState.completed
          ∧ getCurrentState (Db.ok none) ≠ RegState.not_started)) :=
  dispatch_state_only (Db.ok none) Db.unavailable (by decide)

/-- C7 counterexample: with the store unavailable the state read does not
propagate an error; it returns the guessed state `not_started`. -/
theorem state_read_unavailable_cex :
    getCurrentState Db.unavailable = RegState.not_started := rfl

/-- C7 amended: a missing record reads as `not_started`; an unavailable
store is caught and also reads as `not_started` (no error escapes); an
existing record reads as its stored state. -/
theorem getCurrentState_defaults :
    getCurrentState (Db.ok none) = RegState.not_started
    ∧ getCurrentState Db.unavailable = RegState.not_started
    ∧ ∀ u : User, getCurrentState (Db.ok (some u)) = u.registrationState :=
  ⟨rfl, rfl, fun _ => rfl⟩

/-- C8: the end-to-end scenario: from an empty store, start, phone, name,
role, agenda and completion all succeed and the final record holds the
entered answers with `registrationState = completed` and `isRegistered`. -/
theorem end_to_end_registration :
    runStart.2.success = true ∧ runPhone.2.success = true
      ∧ runName.2.success = true ∧ runRole.2.success = true
      ∧ runAgenda.2.success = true ∧ runComplete.2.success = true
      ∧ runComplete.1 = Db.ok (some
          { phoneNumber := some "+14155550123",
            userFullName := some "Jordan Lee",
            role := some "investor",
            registrationState := RegState.completed,
            isRegistered := true }) := by
  decide

/-- C9: `startRegistration` never writes to an existing record and returns
a success result carrying the prompt data of the current state; a fresh
`not_started`, unregistered record is created only on an empty slot. -/
theorem startRegistration_frame (u : User) :
    (startRegistration (Db.ok (some u))).1 = Db.ok (some u)
    ∧ (startRegistration (Db.ok (some u))).2.success = true
    ∧ (startRegistration (Db.ok (some u))).2.state = some u.registrationState
    ∧ (startRegistration (Db.ok (some u))).2.message
        = some (getStateMessage u.registrationState)
    ∧ (startRegistration (Db.ok (some u))).2.keyboard
        = getStateKeyboard u.registrationState
    ∧ (startRegistration (Db.ok none)).1 = Db.ok (some newUser)
    ∧ newUser.registrationState = RegState.not_started
    ∧ newUser.isRegistered = false :=
  ⟨rfl, rfl, rfl, rfl, rfl, rfl, rfl, rfl⟩

/-- C10: every FSM operation is total at its interface: for every store
condition (record present, record missing, backend unavailable) and every
input it returns a result that either reports success or carries a nonempty
error string. -/
theorem fsm_totality (db : Db) (e : Event) :
    ((step db e).2.success = true
      ∨ ∃ s, (step db e).2.error = some s ∧ s ≠ "")
    ∧ ((startRegistration db).2.success = true
      ∨ ∃ s, (startRegistration db).2.error = some s ∧ s ≠ "") := by
  constructor
  · match db with
    | .unavailable => cases e <;> exact Or.inr ⟨_, rfl, by decide⟩
    | .ok none => cases e <;> exact Or.inr ⟨_, rfl, by decide⟩
    | .ok (some u) =>
        cases e <;>
          simp only [step, processPhoneNumber, processFullName,
            processRoleSelection, showAgenda, completeRegistration] <;>
          (repeat' split) <;>
          first
            | exact Or.inl rfl
            | exact Or.inr ⟨_, rfl, by decide⟩
  · match db with
    | .unavailable => exact Or.inr ⟨_, rfl, by decide⟩
    | .ok none => exact Or.inl rfl
    | .ok (some u) => exact Or.inl rfl

end Sochma
